import Mathlib

/-!
Shallow embedding of the context-keeper repository: a tool-augmented
conversation loop built from an LLM completion client, a web-search tool,
and a summary-memory policy.  The definitions below mirror the Python
sources `notebooks/test2_tool_usage.py`, `notebooks/test4_summary_memory.py`
and `src/ui/app.py`; external capabilities (the hosted completion client,
the tool executor, the UI runtime) are passed in as function parameters.
-/

namespace ContextKeeper

/-- Message roles, mirroring langchain message classes:
`SystemMessage`, `HumanMessage`, `AIMessage`, `ToolMessage`. -/
inductive Role where
  | system
  | human
  | ai
  | tool
deriving DecidableEq

/-- One element of a structured (list-form) message content.  The sources
only ever inspect whether the element is a dict and, if so, its optional
`text` field (`content[0].get` with key `text` and default empty string);
other dict fields are not tracked. -/
inductive PyVal where
  | dict (textField : Option String)
  | nonDict
deriving DecidableEq

/-- Message content, which in langchain may be a plain string or a list of
blocks (`[ \x7b type: text, text: ... \x7d ]`-shaped dicts). -/
inductive Content where
  | str (s : String)
  | list (items : List PyVal)
deriving DecidableEq

/-- A tool-call declaration emitted by the completion client.  The only
tool in the repository, `web_search`, takes a single `query` argument, so
the arguments mapping is tracked as that one string. -/
structure ToolCall where
  name : String
  query : String
deriving DecidableEq

/-- A chat turn: role, content, and the tool-call declarations carried by
the message (empty for non-assistant turns). -/
structure Msg where
  role : Role
  content : Content
  tool_calls : List ToolCall
deriving DecidableEq

/-- Python `str(...)` applied to a content value.  For a plain string,
`str` is the identity.  For a list, Python renders its repr; the repr
depends on dict fields this model does not track, so the rendering below
abstracts it as a bracketed rendering of the tracked `text` fields (no
claim relies on this rendering). -/
def pyStr : Content → String
  | Content.str s => s
  | Content.list items =>
      "[" ++ String.intercalate ", " (items.map fun v =>
        match v with
        | PyVal.dict (some t) => "\x7btext: " ++ t ++ "\x7d"
        | PyVal.dict none => "\x7b\x7d"
        | PyVal.nonDict => "nondict") ++ "]"

/-- Embeds `get_ai_response_content` from `notebooks/test4_summary_memory.py`
(lines 13-21): if the content is a non-empty list whose first element is a
dict, return that dict's `text` field (default empty); else if it is a
string, return it; else fall back to `str(content)`. -/
def get_ai_response_content (ai_message : Msg) : String :=
  match ai_message.content with
  | Content.list (PyVal.dict t :: _) => t.getD ""
  | Content.str s => s
  | c => pyStr c

/-- Embeds `get_content_from_message` from `src/ui/app.py` (lines 55-63):
non-AI messages return their content unchanged; AI messages with a
list-of-dicts content return the first dict's `text` field, anything else
falls back to `str(content)`. -/
def get_content_from_message (message : Msg) : Content :=
  if message.role = Role.ai then
    match message.content with
    | Content.list (PyVal.dict t :: _) => Content.str (t.getD "")
    | c => Content.str (pyStr c)
  else
    message.content

/-- Python `str.lower()` restricted to the ASCII lowering that the
concrete queries in the sources exercise. -/
def pyLower (s : String) : String := String.mk (s.data.map Char.toLower)

/-- Python substring containment `needle in haystack`. -/
def pyIn (needle haystack : String) : Bool :=
  decide ( List.IsInfix needle.data haystack.data)

/-- Embeds the stubbed `web_search` tool of
`notebooks/test4_summary_memory.py` (lines 27-33): a fixed description
when the lowered query contains "gemini-2.5", a generic echo otherwise. -/
def web_search (query : String) : String :=
  if pyIn "gemini-2.5" (pyLower query) then
    "Gemini 2.5는 Google의 최신 고성능 모델로, Flash와 Pro 버전이 존재합니다."
  else
    "\x27" ++ query ++ "\x27에 대한 일반 검색 결과입니다."

/-- Embeds the router `should_continue` of `notebooks/test2_tool_usage.py`
(lines 50-58) and `notebooks/test4_summary_memory.py` (lines 58-63): look
at the last message; if it carries tool-call declarations route to
"call_tool", otherwise to "__end__".  (Python indexes `messages[-1]`; the
empty-history case, unreachable inside the graph, is mapped to
"__end__".) -/
def should_continue (messages : List Msg) : String :=
  match messages.getLast? with
  | some last_message =>
      if last_message.tool_calls.isEmpty then "__end__" else "call_tool"
  | none => "__end__"

/-- Embeds the router `should_continue` of `src/ui/app.py` (lines 38-42),
which additionally requires the last message to be an `AIMessage` before
looking at its tool calls. -/
def should_continue_ui (messages : List Msg) : String :=
  match messages.getLast? with
  | some last_message =>
      if last_message.role = Role.ai then
        if last_message.tool_calls.isEmpty then "__end__" else "call_tool"
      else "__end__"
  | none => "__end__"

/-- Embeds langgraph's `ToolNode` as configured with the repository's
single tool list: for each declared tool call of the assistant response it
executes the tool (`exec` dispatches on the declaration) and wraps the
resulting text as a tool-role turn. -/
def tool_node (exec : ToolCall → String) (tcs : List ToolCall) : List Msg :=
  tcs.map fun tc => Msg.mk Role.tool (Content.str (exec tc)) []

/-- Embeds the compiled graph of `notebooks/test2_tool_usage.py` (lines
62-88): entry point "llm" appends one completion response, the
conditional edge applies `should_continue`, "call_tool" runs the tool
node and loops back to "llm", "__end__" stops.  `complete` is the
external completion client, `exec` the tool executor.  Execution is
fuel-indexed because the source enforces no iteration bound; the result
carries the final message list, the number of completion calls and the
number of executed tool calls, or `none` when the fuel runs out. -/
def runAgentGraph (complete : List Msg → Msg) (exec : ToolCall → String) :
    Nat → List Msg → Nat → Nat → Option (List Msg × Nat × Nat)
  | 0, _, _, _ => none
  | fuel + 1, messages, ncomp, ntool =>
      let response := complete messages
      let messages2 := messages ++ [response]
      if should_continue messages2 = "call_tool" then
        runAgentGraph complete exec fuel
          (messages2 ++ tool_node exec response.tool_calls)
          (ncomp + 1) (ntool + response.tool_calls.length)
      else
        some (messages2, ncomp + 1, ntool)

/-- Embeds `app.invoke` on the test2/test4 graph: run from the entry
point with zero completion/tool counters. -/
def invokeAgent (complete : List Msg → Msg) (exec : ToolCall → String)
    (fuel : Nat) (messages : List Msg) : Option (List Msg × Nat × Nat) :=
  runAgentGraph complete exec fuel messages 0 0

/-- Literal memory threshold of `notebooks/test4_summary_memory.py`,
line 81. -/
def MEMORY_THRESHOLD : Nat := 12

/-- The fixed summarizer instruction of `notebooks/test4_summary_memory.py`,
line 116. -/
def summarizer_instruction : String :=
  "You are a conversation summarizer. Summarize the following dialogue into one concise Korean sentence, incorporating the previous summary if provided."

/-- Embeds the transcript loop of `notebooks/test4_summary_memory.py`
(lines 107-112): fold over the history, appending "Human: {content}\n"
for `HumanMessage`s and "AI: {extracted text}\n" for `AIMessage`s;
other message classes are skipped. -/
def dialogText (conversation_history : List Msg) : String :=
  conversation_history.foldl
    (fun dialog_text msg =>
      match msg.role with
      | Role.human => dialog_text ++ "Human: " ++ pyStr msg.content ++ "\n"
      | Role.ai => dialog_text ++ "AI: " ++ get_ai_response_content msg ++ "\n"
      | _ => dialog_text) ""

/-- Embeds the summarizer prompt of `notebooks/test4_summary_memory.py`
(lines 115-118): the fixed system instruction followed by the flattened
dialogue as a human turn. -/
def summarizer_prompt (dialog_text : String) : List Msg :=
  [Msg.mk Role.system (Content.str summarizer_instruction) [],
   Msg.mk Role.human (Content.str dialog_text) []]

/-- Result of the post-turn memory check: the stored history, the stored
summary text, and how many summarization completion calls were issued. -/
structure MemoryCheckResult where
  conversation_history : List Msg
  summary_text : String
  summarizer_calls : Nat
deriving DecidableEq

/-- Embeds the post-turn memory check of
`notebooks/test4_summary_memory.py` (lines 103-129): when the history
length has reached `MEMORY_THRESHOLD`, build the transcript, issue one
completion call (`summ_model`, the plain model without tools) on the
summarizer prompt, extract its text, and replace the whole history by a
single system-role turn carrying the summary; otherwise leave the state
unchanged. -/
def memoryCheck (summ_model : List Msg → Msg) (conversation_history : List Msg)
    (summary_text : String) : MemoryCheckResult :=
  if MEMORY_THRESHOLD ≤ conversation_history.length then
    let dialog_text := dialogText conversation_history
    let summary_response := summ_model (summarizer_prompt dialog_text)
    let s := get_ai_response_content summary_response
    ⟨[Msg.mk Role.system
        (Content.str ("This is a summary of the previous conversasion: " ++ s)) []],
      s, 1⟩
  else
    ⟨conversation_history, summary_text, 0⟩

/-- Failure modes distinguished by the `except` clauses of the UI chat
handler in `src/ui/app.py` (lines 148-151): `google.api_core.exceptions.ServiceUnavailable`
is caught specifically; every other exception is caught generically,
carrying its rendered text. -/
inductive UiFailure where
  | serviceUnavailable
  | otherError (text : String)
deriving DecidableEq

/-- The user-facing message shown for `ServiceUnavailable`
(`src/ui/app.py`, line 149). -/
def service_unavailable_text : String :=
  "모델 서버가 일시적으로 응답하지 않습니다. 잠시 후 다시 시도해주세요."

/-- The user-facing message shown for any other exception
(`src/ui/app.py`, line 151). -/
def generic_error_text (e : String) : String :=
  "예상치 못한 오류가 발생했습니다: " ++ e

/-- Outcome of one UI chat turn: the stored session message list, the
error message surfaced to the user (if any), and how many times the
fallible agent body (`app.invoke` plus streaming) was entered. -/
structure UiTurnResult where
  session_messages : List Msg
  error_shown : Option String
  body_entries : Nat
deriving DecidableEq

/-- Embeds the `st.chat_input` handler of `src/ui/app.py` (lines 115-151):
the user turn is appended to the session history before the `try` block;
the try body (`app.invoke` and the streaming display, abstracted as the
fallible `try_body`) either yields the final message list, which replaces
the session history, or fails, in which case an error message is shown,
nothing is retried, and the session history is left exactly as it was
when the failure occurred. -/
def handle_chat_input (try_body : List Msg → Except UiFailure (List Msg))
    (session_messages : List Msg) (prompt : String) : UiTurnResult :=
  let session_messages := session_messages ++ [Msg.mk Role.human (Content.str prompt) []]
  match try_body session_messages with
  | Except.ok final_msgs => ⟨final_msgs, none, 1⟩
  | Except.error UiFailure.serviceUnavailable =>
      ⟨session_messages, some service_unavailable_text, 1⟩
  | Except.error (UiFailure.otherError e) =>
      ⟨session_messages, some (generic_error_text e), 1⟩

/-- Spec-side restatement (for comparison with `dialogText`): the line
contributed by one turn of the transcript — its role label followed by
its text for human/assistant turns, nothing for any other turn. -/
def msgLine (msg : Msg) : String :=
  match msg.role with
  | Role.human => "Human: " ++ pyStr msg.content ++ "\n"
  | Role.ai => "AI: " ++ get_ai_response_content msg ++ "\n"
  | _ => ""

/-- Flattened concatenation, in order, of the transcript lines of a list
of turns. -/
def concatLines : List Msg → String
  | [] => ""
  | m :: rest => msgLine m ++ concatLines rest

/-- Spec-side restatement of the transcript (for comparison with
`dialogText`): the concatenation, in order, of the lines of exactly the
human and assistant turns. -/
def specTranscript (conversation_history : List Msg) : String :=
  concatLines
    (conversation_history.filter
      fun m => decide (m.role = Role.human) || decide (m.role = Role.ai))

/-- Concrete fixture: a summarizer oracle that always answers with the
plain text "S". -/
def const_summ_model : List Msg → Msg :=
  fun _ => Msg.mk Role.ai (Content.str "S") []

/-- Concrete fixture: a 12-turn history of human messages, exactly at the
memory threshold. -/
def hist12 : List Msg :=
  List.replicate 12 (Msg.mk Role.human (Content.str "hi") [])

/-- Concrete fixture: a completion oracle realizing the documented
scenario — on the initial single-turn history it declares one
`web_search` call with query "gemini-2.5", on any longer history it
answers with final text and no tool calls. -/
def gemini_scenario_complete (messages : List Msg) : Msg :=
  if messages.length = 1 then
    Msg.mk Role.ai (Content.str "") [ToolCall.mk "web_search" "gemini-2.5"]
  else
    Msg.mk Role.ai
      (Content.str "Gemini 2.5는 Google의 최신 고성능 모델로, Flash와 Pro 버전이 존재합니다.") []

/-- Tool executor dispatching a declared call to the stubbed `web_search`
tool (the only tool in the repository's tool list). -/
def web_search_exec (tc : ToolCall) : String := web_search tc.query

/-- Concrete fixture: a completion oracle that declares a tool call on
every response, realizing the adversarial unbounded-loop scenario. -/
def always_tool_complete : List Msg → Msg :=
  fun _ => Msg.mk Role.ai (Content.str "") [ToolCall.mk "web_search" "again"]

/-- The last element of a history extended by one response is that
response. -/
theorem getLast_append_one (l : List Msg) (a : Msg) :
    (l ++ [a]).getLast? = some a := by
  rw [List.getLast?_append_cons]
  rfl

/-- The transcript fold equals the flattened line concatenation, from any
accumulator. -/
theorem dialogText_foldl_eq (hist : List Msg) :
    ∀ acc : String,
      hist.foldl
        (fun dialog_text msg =>
          match msg.role with
          | Role.human => dialog_text ++ "Human: " ++ pyStr msg.content ++ "\n"
          | Role.ai => dialog_text ++ "AI: " ++ get_ai_response_content msg ++ "\n"
          | _ => dialog_text) acc
      = acc ++ concatLines hist := by
  induction hist with
  | nil => intro acc; simp [concatLines]
  | cons m rest ih =>
      intro acc
      rw [List.foldl_cons, ih, concatLines]
      cases h : m.role <;>
        simp [msgLine, h, String.append_assoc]

/-- The transcript of the source equals the flattened concatenation of
per-turn lines. -/
theorem dialogText_eq_concatLines (hist : List Msg) :
    dialogText hist = concatLines hist := by
  have h := dialogText_foldl_eq hist ""
  simpa [dialogText] using h

/-- Turns that are neither human nor assistant contribute no line. -/
theorem msgLine_eq_empty (m : Msg)
    (h1 : m.role ≠ Role.human) (h2 : m.role ≠ Role.ai) : msgLine m = "" := by
  unfold msgLine
  cases h : m.role
  · rfl
  · exact absurd h h1
  · exact absurd h h2
  · rfl

/-- Dropping the turns that contribute no line leaves the concatenation
unchanged. -/
theorem concatLines_filter (hist : List Msg) :
    concatLines
      (hist.filter fun m => decide (m.role = Role.human) || decide (m.role = Role.ai))
    = concatLines hist := by
  induction hist with
  | nil => rfl
  | cons m rest ih =>
      by_cases hh : m.role = Role.human
      · simp [List.filter_cons, hh, concatLines, ih]
      · by_cases ha : m.role = Role.ai
        · simp [List.filter_cons, ha, concatLines, ih]
        · simp [List.filter_cons, hh, ha, concatLines, ih, msgLine_eq_empty m hh ha]

/-- Concrete fixture: a completion oracle that always answers with plain
text and no tool calls. -/
def plain_answer_complete : List Msg → Msg :=
  fun _ => Msg.mk Role.ai (Content.str "ok") []

/-- One llm step whose response carries no tool calls stops the graph,
returning the extended history and incremented completion count. -/
theorem runAgentGraph_stop (complete : List Msg → Msg) (exec : ToolCall → String)
    (fuel : Nat) (messages : List Msg) (ncomp ntool : Nat)
    (h : (complete messages).tool_calls = []) :
    runAgentGraph complete exec (fuel + 1) messages ncomp ntool
      = some (messages ++ [complete messages], ncomp + 1, ntool) := by
  have hsc : should_continue (messages ++ [complete messages]) = "__end__" := by
    simp [should_continue, getLast_append_one, h]
  simp [runAgentGraph, hsc]

/-- One llm step whose response carries tool calls routes through the tool
node and loops back to the llm node. -/
theorem runAgentGraph_step (complete : List Msg → Msg) (exec : ToolCall → String)
    (fuel : Nat) (messages : List Msg) (ncomp ntool : Nat)
    (h : (complete messages).tool_calls ≠ []) :
    runAgentGraph complete exec (fuel + 1) messages ncomp ntool
      = runAgentGraph complete exec fuel
          (messages ++ [complete messages] ++ tool_node exec (complete messages).tool_calls)
          (ncomp + 1) (ntool + (complete messages).tool_calls.length) := by
  have hsc : should_continue (messages ++ [complete messages]) = "call_tool" := by
    simp [should_continue, getLast_append_one, List.isEmpty_iff, h]
  simp [runAgentGraph, hsc]

/-- C5: for every conversation state, if the completion response appended
by the llm node carries no tool-call declarations, both routers return
the end state and the orchestration loop terminates after exactly one
completion call with no tool execution. -/
theorem no_tool_calls_single_completion (complete : List Msg → Msg)
    (exec : ToolCall → String) (fuel : Nat) (messages : List Msg)
    (h : (complete messages).tool_calls = []) :
    should_continue (messages ++ [complete messages]) = "__end__" ∧
    should_continue_ui (messages ++ [complete messages]) = "__end__" ∧
    invokeAgent complete exec (fuel + 1) messages
      = some (messages ++ [complete messages], 1, 0) := by
  refine ⟨by simp [should_continue, getLast_append_one, h], ?_, ?_⟩
  · unfold should_continue_ui
    rw [getLast_append_one]
    by_cases hr : (complete messages).role = Role.ai
    · simp [hr, h]
    · simp [hr]
  · exact runAgentGraph_stop complete exec fuel messages 0 0 h

/-- Witness for C5 at a concrete input: the no-tool oracle answering a
single user turn terminates in one completion with no tool executions. -/
theorem no_tool_calls_single_completion_witness :
    (plain_answer_complete [Msg.mk Role.human (Content.str "hello") []]).tool_calls = [] ∧
    invokeAgent plain_answer_complete web_search_exec 1
        [Msg.mk Role.human (Content.str "hello") []]
      = some ([Msg.mk Role.human (Content.str "hello") [],
               Msg.mk Role.ai (Content.str "ok") []], 1, 0) := by
  refine ⟨rfl, ?_⟩
  exact (no_tool_calls_single_completion plain_answer_complete web_search_exec 0
    [Msg.mk Role.human (Content.str "hello") []] rfl).2.2

/-- C6: a completion response declaring exactly one tool call routes to
the tool node, executes that single call, and issues exactly one more
completion call; when that second response declares no tool calls the
loop terminates with the history extended by the assistant-with-call,
tool-result and final-assistant turns, after 2 completion calls and 1
executed tool call. -/
theorem one_tool_call_two_completions (complete : List Msg → Msg)
    (exec : ToolCall → String) (fuel : Nat) (messages : List Msg) (tc : ToolCall)
    (h1 : (complete messages).tool_calls = [tc])
    (h2 : (complete (messages ++ [complete messages]
            ++ [Msg.mk Role.tool (Content.str (exec tc)) []])).tool_calls = []) :
    invokeAgent complete exec (fuel + 2) messages
      = some (messages ++ [complete messages]
          ++ [Msg.mk Role.tool (Content.str (exec tc)) []]
          ++ [complete (messages ++ [complete messages]
              ++ [Msg.mk Role.tool (Content.str (exec tc)) []])], 2, 1) := by
  have hne : (complete messages).tool_calls ≠ [] := by
    rw [h1]; exact List.cons_ne_nil tc []
  have hstep := runAgentGraph_step complete exec (fuel + 1) messages 0 0 hne
  rw [invokeAgent, hstep, h1]
  have hstop := runAgentGraph_stop complete exec fuel
    (messages ++ [complete messages] ++ tool_node exec [tc]) 1 1 ?_
  · rw [show (0 + 1 : Nat) = 1 from rfl, show (0 + [tc].length : Nat) = 1 from rfl]
    rw [hstop]
    simp [tool_node]
  · simpa [tool_node] using h2

/-- Witness for C6: the documented scenario — one user turn asking about
Gemini 2.5, a first completion declaring `web_search("gemini-2.5")`, the
stubbed tool answer, and a final completion — terminates with 4 turns
(user, assistant-with-call, tool-result, assistant-final), 2 completion
calls and 1 tool execution. -/
theorem one_tool_call_two_completions_witness :
    invokeAgent gemini_scenario_complete web_search_exec 2
        [Msg.mk Role.human (Content.str "What is Gemini 2.5?") []]
      = some ([Msg.mk Role.human (Content.str "What is Gemini 2.5?") [],
               Msg.mk Role.ai (Content.str "") [ToolCall.mk "web_search" "gemini-2.5"],
               Msg.mk Role.tool (Content.str
                 "Gemini 2.5는 Google의 최신 고성능 모델로, Flash와 Pro 버전이 존재합니다.") [],
               Msg.mk Role.ai (Content.str
                 "Gemini 2.5는 Google의 최신 고성능 모델로, Flash와 Pro 버전이 존재합니다.") []],
              2, 1) := by
  have h := one_tool_call_two_completions gemini_scenario_complete web_search_exec 0
    [Msg.mk Role.human (Content.str "What is Gemini 2.5?") []]
    (ToolCall.mk "web_search" "gemini-2.5") rfl (by decide)
  have hws : web_search_exec (ToolCall.mk "web_search" "gemini-2.5")
      = "Gemini 2.5는 Google의 최신 고성능 모델로, Flash와 Pro 버전이 존재합니다." := by
    decide
  rw [h]
  simp [gemini_scenario_complete, hws]

/-- C7: the loop enforces no iteration bound — against an oracle whose
every response declares a tool call, the run exhausts any amount of fuel
without ever reaching the terminal state. -/
theorem unbounded_loop_never_terminates (exec : ToolCall → String) :
    ∀ (fuel : Nat) (messages : List Msg) (ncomp ntool : Nat),
      runAgentGraph always_tool_complete exec fuel messages ncomp ntool = none := by
  intro fuel
  induction fuel with
  | zero => intro messages ncomp ntool; rfl
  | succ n ih =>
      intro messages ncomp ntool
      have hne : (always_tool_complete messages).tool_calls ≠ [] := by
        simp [always_tool_complete]
      rw [runAgentGraph_step always_tool_complete exec n messages ncomp ntool hne]
      exact ih _ _ _

/-- When the threshold is reached, the memory check replaces the history
by the single system turn built from the summarizer's answer. -/
theorem memoryCheck_fires (summ_model : List Msg → Msg)
    (hist : List Msg) (summary_text : String)
    (h : MEMORY_THRESHOLD ≤ hist.length) :
    (memoryCheck summ_model hist summary_text).conversation_history
      = [Msg.mk Role.system
          (Content.str ("This is a summary of the previous conversasion: "
            ++ get_ai_response_content
                (summ_model (summarizer_prompt (dialogText hist))))) []] := by
  simp [memoryCheck, h]

/-- C1: whenever the history length has reached the literal threshold 12
at the post-turn check, exactly one summarization completion call is
issued and the stored history is replaced by exactly one system-role
turn. -/
theorem threshold_fires_single_summary (summ_model : List Msg → Msg)
    (hist : List Msg) (summary_text : String)
    (h : MEMORY_THRESHOLD ≤ hist.length) :
    MEMORY_THRESHOLD = 12 ∧
    (memoryCheck summ_model hist summary_text).summarizer_calls = 1 ∧
    (memoryCheck summ_model hist summary_text).conversation_history.map Msg.role
      = [Role.system] := by
  refine ⟨rfl, ?_, ?_⟩ <;> simp [memoryCheck, h]

/-- Witness for C1: a 12-turn history triggers exactly one summarizer
call and is replaced by a single system turn. -/
theorem threshold_fires_single_summary_witness :
    MEMORY_THRESHOLD ≤ hist12.length ∧
    (memoryCheck const_summ_model hist12 "").summarizer_calls = 1 ∧
    (memoryCheck const_summ_model hist12 "").conversation_history.map Msg.role
      = [Role.system] := by
  have h : MEMORY_THRESHOLD ≤ hist12.length := by decide
  exact ⟨h, (threshold_fires_single_summary const_summ_model hist12 "" h).2⟩

/-- C2 counterexample: on a concrete 12-turn history with a summarizer
answering "S", the installed system turn is NOT the spec's string
"This is a summary of the previous conversation: S" (the source writes
"conversasion"). -/
theorem summary_turn_spelling_counterexample :
    ¬ ((memoryCheck const_summ_model hist12 "").conversation_history
      = [Msg.mk Role.system
          (Content.str "This is a summary of the previous conversation: S") []]) := by
  decide

/-- C2 (amended): when summarization fires, the whole conversation is
replaced by a single system turn whose content is exactly
"This is a summary of the previous conversasion: " followed by the text
extracted from the summarizer's response. -/
theorem summary_turn_content (summ_model : List Msg → Msg)
    (hist : List Msg) (summary_text : String)
    (h : MEMORY_THRESHOLD ≤ hist.length) :
    (memoryCheck summ_model hist summary_text).conversation_history
      = [Msg.mk Role.system
          (Content.str ("This is a summary of the previous conversasion: "
            ++ get_ai_response_content
                (summ_model (summarizer_prompt (dialogText hist))))) []] :=
  memoryCheck_fires summ_model hist summary_text h

/-- Witness for C2 (amended): the concrete 12-turn history yields the
single system turn with the source's spelling. -/
theorem summary_turn_content_witness :
    MEMORY_THRESHOLD ≤ hist12.length ∧
    (memoryCheck const_summ_model hist12 "").conversation_history
      = [Msg.mk Role.system
          (Content.str "This is a summary of the previous conversasion: S") []] := by
  have h : MEMORY_THRESHOLD ≤ hist12.length := by decide
  refine ⟨h, ?_⟩
  rw [summary_turn_content const_summ_model hist12 "" h]
  rfl

/-- C3: the transcript handed to the summarizer is the flattened
concatenation, in order, of the per-turn lines, and it equals the
concatenation over exactly the human and assistant turns (so tool-result
turns contribute nothing). -/
theorem transcript_exactly_human_ai (hist : List Msg) :
    dialogText hist = concatLines hist ∧ dialogText hist = specTranscript hist := by
  refine ⟨dialogText_eq_concatLines hist, ?_⟩
  rw [dialogText_eq_concatLines hist, specTranscript, concatLines_filter]

/-- C4: immediately after a summarization replacement, appending the next
user turn yields a history of length exactly 2. -/
theorem post_summary_next_turn_length (summ_model : List Msg → Msg)
    (hist : List Msg) (summary_text user_input : String)
    (h : MEMORY_THRESHOLD ≤ hist.length) :
    ((memoryCheck summ_model hist summary_text).conversation_history
      ++ [Msg.mk Role.human (Content.str user_input) []]).length = 2 := by
  simp [memoryCheck, h]

/-- Witness for C4: after the concrete 12-turn history is summarized,
appending one user turn gives a history of length 2. -/
theorem post_summary_next_turn_length_witness :
    MEMORY_THRESHOLD ≤ hist12.length ∧
    ((memoryCheck const_summ_model hist12 "").conversation_history
      ++ [Msg.mk Role.human (Content.str "next question") []]).length = 2 := by
  have h : MEMORY_THRESHOLD ≤ hist12.length := by decide
  exact ⟨h, post_summary_next_turn_length const_summ_model hist12 "" "next question" h⟩

set_option maxRecDepth 100000

/-- C10: system-role turns contribute nothing to the summarizer
transcript; in particular the single system turn installed by a previous
summarization never reaches a later summarization call, even though the
fixed summarizer instruction asks to incorporate the previous summary. -/
theorem system_turns_never_in_transcript :
    (∀ (c : Content) (tcs : List ToolCall) (rest : List Msg),
      dialogText (Msg.mk Role.system c tcs :: rest) = dialogText rest) ∧
    pyIn "incorporating the previous summary" summarizer_instruction = true ∧
    ∀ (summ_model : List Msg → Msg) (hist : List Msg) (summary_text : String)
      (rest : List Msg), MEMORY_THRESHOLD ≤ hist.length →
      dialogText ((memoryCheck summ_model hist summary_text).conversation_history ++ rest)
        = dialogText rest := by
  have hs : ∀ (c : Content) (tcs : List ToolCall) (rest : List Msg),
      dialogText (Msg.mk Role.system c tcs :: rest) = dialogText rest := by
    intro c tcs rest
    rw [dialogText_eq_concatLines, dialogText_eq_concatLines, concatLines]
    simp [msgLine]
  refine ⟨hs, by decide, ?_⟩
  intro summ_model hist summary_text rest h
  rw [memoryCheck_fires summ_model hist summary_text h]
  exact hs _ _ rest

/-- Witness for C10: the system turn installed by summarizing the
concrete 12-turn history contributes nothing to the transcript of a
later history built on top of it. -/
theorem system_turns_never_in_transcript_witness :
    MEMORY_THRESHOLD ≤ hist12.length ∧
    dialogText ((memoryCheck const_summ_model hist12 "").conversation_history
        ++ [Msg.mk Role.human (Content.str "next question") []])
      = dialogText [Msg.mk Role.human (Content.str "next question") []] := by
  have h : MEMORY_THRESHOLD ≤ hist12.length := by decide
  exact ⟨h, system_turns_never_in_transcript.2.2 const_summ_model hist12 ""
    [Msg.mk Role.human (Content.str "next question") []] h⟩

/-- C8: in the UI variant, a ServiceUnavailable failure is caught
specifically and surfaced with its fixed user-facing message; every other
failure is caught generically with a message built from the exception
text; in both cases the fallible agent body is entered exactly once (no
retry) and the stored session history is exactly what it was when the
failure occurred — the already-appended user turn, with no assistant turn
appended and no rollback. -/
theorem ui_errors_leave_history_as_is
    (try_body : List Msg → Except UiFailure (List Msg))
    (session : List Msg) (prompt : String) :
    (try_body (session ++ [Msg.mk Role.human (Content.str prompt) []])
        = Except.error UiFailure.serviceUnavailable →
      handle_chat_input try_body session prompt
        = ⟨session ++ [Msg.mk Role.human (Content.str prompt) []],
            some service_unavailable_text, 1⟩) ∧
    ∀ e : String,
      try_body (session ++ [Msg.mk Role.human (Content.str prompt) []])
          = Except.error (UiFailure.otherError e) →
      handle_chat_input try_body session prompt
        = ⟨session ++ [Msg.mk Role.human (Content.str prompt) []],
            some (generic_error_text e), 1⟩ := by
  constructor
  · intro h
    simp [handle_chat_input, h]
  · intro e h
    simp [handle_chat_input, h]

/-- Witness for C8: concrete always-failing agent bodies produce the
fixed service-unavailable message and the generic message respectively,
each leaving the session as the prior history plus the user turn. -/
theorem ui_errors_leave_history_as_is_witness :
    handle_chat_input (fun _ => Except.error UiFailure.serviceUnavailable) [] "hi"
      = ⟨[Msg.mk Role.human (Content.str "hi") []], some service_unavailable_text, 1⟩ ∧
    handle_chat_input (fun _ => Except.error (UiFailure.otherError "boom")) [] "hi"
      = ⟨[Msg.mk Role.human (Content.str "hi") []],
          some (generic_error_text "boom"), 1⟩ := by
  constructor
  · have h := (ui_errors_leave_history_as_is
      (fun _ => Except.error UiFailure.serviceUnavailable) [] "hi").1 rfl
    simpa using h
  · have h := (ui_errors_leave_history_as_is
      (fun _ => Except.error (UiFailure.otherError "boom")) [] "hi").2 "boom" rfl
    simpa using h

/-- C9: both content-extraction helpers return the first block's text
field on a structured list-of-blocks content and return a plain string
content unchanged. -/
theorem content_extraction_first_block_or_identity
    (t s : String) (rest : List PyVal) (r : Role) (tcs : List ToolCall) :
    get_ai_response_content
        (Msg.mk r (Content.list (PyVal.dict (some t) :: rest)) tcs) = t ∧
    get_ai_response_content (Msg.mk r (Content.str s) tcs) = s ∧
    get_content_from_message
        (Msg.mk Role.ai (Content.list (PyVal.dict (some t) :: rest)) tcs)
      = Content.str t ∧
    get_content_from_message (Msg.mk Role.ai (Content.str s) tcs)
      = Content.str s := by
  refine ⟨rfl, rfl, ?_, ?_⟩ <;> simp [get_content_from_message, pyStr]

end ContextKeeper
